import Mathlib

/-!
Verification of the GitHub App installation handshake middleware
(`cmd/frontend/internal/auth/githubappauth/middleware.go`).

The development shallowly embeds the middleware's pure logic:

* the random-token generator `RandomState` (SHA-256 of freshly drawn random
  bytes, hex-encoded) — the randomness is made explicit by passing the drawn
  bytes as an argument;
* the state cache (an ephemeral key/value store with set/get/delete, the
  TTL being an environmental property) and the JSON state codec;
* the `/state`, `/redirect` and `/setup` HTTP handlers as pure functions
  from the request's query parameters, the ambient world state (cache,
  app/webhook/installation storage) and the external collaborators to a
  response together with the updated world;
* the domain router `generateRedirectURL` and the manifest-conversion
  client `createGitHubApp`.

Machine integers are modelled as `Nat`/`Int` with explicit reduction
modulo `2 ^ 32` where the SHA-256 compression function requires it.
-/

/-- Reduce a natural number to a 32-bit word, as Go's `uint32` arithmetic does. -/
def w32 (x : Nat) : Nat := x % 4294967296

/-- Right rotation of a 32-bit word (`x` is assumed `< 2 ^ 32`). -/
def rotr (k x : Nat) : Nat := (x >>> k) ||| w32 (x <<< (32 - k))

/-- SHA-256 `Ch` function. The complement is expressed as xor with the 32-bit mask. -/
def ch (x y z : Nat) : Nat := (x &&& y) ^^^ ((x ^^^ 4294967295) &&& z)

/-- SHA-256 `Maj` function. -/
def maj (x y z : Nat) : Nat := (x &&& y) ^^^ (x &&& z) ^^^ (y &&& z)

/-- SHA-256 big sigma-0. -/
def bigSigma0 (x : Nat) : Nat := (rotr 2 x) ^^^ (rotr 13 x) ^^^ (rotr 22 x)

/-- SHA-256 big sigma-1. -/
def bigSigma1 (x : Nat) : Nat := (rotr 6 x) ^^^ (rotr 11 x) ^^^ (rotr 25 x)

/-- SHA-256 small sigma-0. -/
def smallSigma0 (x : Nat) : Nat := (rotr 7 x) ^^^ (rotr 18 x) ^^^ (x >>> 3)

/-- SHA-256 small sigma-1. -/
def smallSigma1 (x : Nat) : Nat := (rotr 17 x) ^^^ (rotr 19 x) ^^^ (x >>> 10)

/-- The 64 SHA-256 round constants of FIPS 180-4, written in decimal. -/
def sha256K : List Nat :=
  [1116352408, 1899447441, 3049323471, 3921009573, 961987163, 1508970993,
   2453635748, 2870763221, 3624381080, 310598401, 607225278, 1426881987,
   1925078388, 2162078206, 2614888103, 3248222580, 3835390401, 4022224774,
   264347078, 604807628, 770255983, 1249150122, 1555081692, 1996064986,
   2554220882, 2821834349, 2952996808, 3210313671, 3336571891, 3584528711,
   113926993, 338241895, 666307205, 773529912, 1294757372, 1396182291,
   1695183700, 1986661051, 2177026350, 2456956037, 2730485921, 2820302411,
   3259730800, 3345764771, 3516065817, 3600352804, 4094571909, 275423344,
   430227734, 506948616, 659060556, 883997877, 958139571, 1322822218,
   1537002063, 1747873779, 1955562222, 2024104815, 2227730452, 2361852424,
   2428436474, 2756734187, 3204031479, 3329325298]

/-- Internal state of the SHA-256 compression function: eight 32-bit words. -/
structure Hash8 where
  a : Nat
  b : Nat
  c : Nat
  d : Nat
  e : Nat
  f : Nat
  g : Nat
  h : Nat

/-- The SHA-256 initial hash value of FIPS 180-4, written in decimal. -/
def sha256H0 : Hash8 :=
  ⟨1779033703, 3144134277, 1013904242, 2773480762,
   1359893119, 2600822924, 528734635, 1541459225⟩

/-- Group a byte list into big-endian 32-bit words (trailing partial group dropped;
none occurs on padded input). -/
def bytesToWords : List Nat → List Nat
  | b0 :: b1 :: b2 :: b3 :: rest => (((b0 * 256 + b1) * 256 + b2) * 256 + b3) :: bytesToWords rest
  | _ => []

/-- Append the next word of the SHA-256 message schedule. -/
def scheduleStep (ws : List Nat) : List Nat :=
  let t := ws.length
  let get := fun i => ws.getD i 0
  ws ++ [w32 (smallSigma1 (get (t - 2)) + get (t - 7) + smallSigma0 (get (t - 15)) + get (t - 16))]

/-- Extend the 16 block words to the full 64-word message schedule. -/
def extendTo64 (ws : List Nat) : List Nat :=
  (List.range 48).foldl (fun acc _ => scheduleStep acc) ws

/-- One round of the SHA-256 compression function. -/
def sha256Round (st : Hash8) (k w : Nat) : Hash8 :=
  let t1 := w32 (st.h + bigSigma1 st.e + ch st.e st.f st.g + k + w)
  let t2 := w32 (bigSigma0 st.a + maj st.a st.b st.c)
  ⟨w32 (t1 + t2), st.a, st.b, st.c, w32 (st.d + t1), st.e, st.f, st.g⟩

/-- Compress one 64-byte block into the running hash state. -/
def compress (st : Hash8) (block : List Nat) : Hash8 :=
  let ws := extendTo64 (bytesToWords block)
  let fin := (List.zip sha256K ws).foldl (fun s kw => sha256Round s kw.1 kw.2) st
  ⟨w32 (st.a + fin.a), w32 (st.b + fin.b), w32 (st.c + fin.c), w32 (st.d + fin.d),
   w32 (st.e + fin.e), w32 (st.f + fin.f), w32 (st.g + fin.g), w32 (st.h + fin.h)⟩

/-- The message length in bits as eight big-endian bytes. -/
def lenBytes (n : Nat) : List Nat :=
  [(n >>> 56) % 256, (n >>> 48) % 256, (n >>> 40) % 256, (n >>> 32) % 256,
   (n >>> 24) % 256, (n >>> 16) % 256, (n >>> 8) % 256, n % 256]

/-- SHA-256 padding: a 0x80 byte, zeros to 56 mod 64, then the bit length. -/
def pad (msg : List Nat) : List Nat :=
  msg ++ 0x80 :: (List.replicate ((119 - msg.length % 64) % 64) 0 ++ lenBytes (msg.length * 8))

/-- Fold the compression function over consecutive 64-byte blocks. -/
def chunksLoop (st : Hash8) (l : List Nat) : Hash8 :=
  if _h : 64 ≤ l.length then chunksLoop (compress st (l.take 64)) (l.drop 64) else st
termination_by l.length
decreasing_by rw [List.length_drop]; omega

/-- A 32-bit word as four big-endian bytes. -/
def wordBytes (x : Nat) : List Nat := [(x >>> 24) % 256, (x >>> 16) % 256, (x >>> 8) % 256, x % 256]

/-- SHA-256 of a byte string, as a list of 32 bytes (`crypto/sha256`). -/
def sha256 (msg : List Nat) : List Nat :=
  let st := chunksLoop sha256H0 (pad msg)
  wordBytes st.a ++ wordBytes st.b ++ wordBytes st.c ++ wordBytes st.d ++
  wordBytes st.e ++ wordBytes st.f ++ wordBytes st.g ++ wordBytes st.h

/-- Lowercase hex digit for a value below 16 (`encoding/hex` alphabet). -/
def hexDigitLower (n : Nat) : Char :=
  if n < 10 then Char.ofNat (48 + n) else Char.ofNat (87 + n)

/-- Hex-encode a byte list, two lowercase digits per byte (`hex.EncodeToString`). -/
def hexEncodeChars : List Nat → List Char
  | [] => []
  | b :: bs => hexDigitLower (b / 16 % 16) :: hexDigitLower (b % 16) :: hexEncodeChars bs

/-- Hex-encode a byte list to a string. -/
def hexEncode (bs : List Nat) : String := ⟨hexEncodeChars bs⟩

/-- The random-state generator of `middleware.go` (`RandomState`): SHA-256 of the
freshly drawn random bytes, hex-encoded. The `n` random bytes read from
`crypto/rand` are passed explicitly as `data`, so the function is pure. -/
def RandomState (data : List Nat) : String := hexEncode (sha256 data)

/-- A character of the lowercase hexadecimal alphabet. -/
def isLowerHexChar (c : Char) : Bool :=
  (48 ≤ c.toNat && c.toNat ≤ 57) || (97 ≤ c.toNat && c.toNat ≤ 102)

/-- A string over the lowercase hexadecimal alphabet. -/
def isLowerHex (s : String) : Bool := s.data.all isLowerHexChar

theorem hexDigitLower_isLowerHex {n : Nat} (h : n < 16) :
    isLowerHexChar (hexDigitLower n) = true := by
  interval_cases n <;> decide

theorem hexEncodeChars_length (bs : List Nat) : (hexEncodeChars bs).length = 2 * bs.length := by
  induction bs with
  | nil => rfl
  | cons b bs ih => simp [hexEncodeChars, ih]; omega

theorem hexEncodeChars_lowerHex (bs : List Nat) :
    (hexEncodeChars bs).all isLowerHexChar = true := by
  induction bs with
  | nil => rfl
  | cons b bs ih =>
    simp only [hexEncodeChars, List.all_cons, ih, Bool.and_true]
    rw [hexDigitLower_isLowerHex (by omega), hexDigitLower_isLowerHex (by omega)]
    rfl

theorem sha256_length (msg : List Nat) : (sha256 msg).length = 32 := by
  simp [sha256, wordBytes]

theorem RandomState_length (data : List Nat) : (RandomState data).length = 64 := by
  show (hexEncodeChars (sha256 data)).length = 64
  rw [hexEncodeChars_length, sha256_length]

theorem RandomState_lowerHex (data : List Nat) : isLowerHex (RandomState data) = true := by
  show (hexEncodeChars (sha256 data)).all isLowerHexChar = true
  exact hexEncodeChars_lowerHex _

theorem RandomState_ne_empty (data : List Nat) : RandomState data ≠ "" := by
  intro h
  have := RandomState_length data
  rw [h] at this
  simp [String.length] at this

/-- The serialized state context bound to a token (`gitHubAppStateDetails` in
`middleware.go`, with Go zero values as defaults; `omitempty` fields round-trip
to their zero values, so `encoding/json` marshal/unmarshal is the identity on
this struct). -/
structure gitHubAppStateDetails where
  WebhookUUID : String := ""
  Domain : String := ""
  AppID : Int := 0
  BaseURL : String := ""
deriving DecidableEq

/-- A value held by the state cache: either the `encoding/json` serialization of
a `gitHubAppStateDetails` (the only thing the middleware ever stores), or raw
bytes that do not deserialize as one. The JSON byte-level representation is
abstracted: `enc` is injective and `raw` covers every non-decoding byte string. -/
inductive StoredValue where
  | enc (d : gitHubAppStateDetails)
  | raw (s : String)
deriving DecidableEq

/-- The state codec's serializer (`json.Marshal` of `gitHubAppStateDetails`;
it cannot fail on this struct). -/
def jsonMarshalStateDetails (d : gitHubAppStateDetails) : StoredValue := .enc d

/-- The state codec's deserializer (`json.Unmarshal` into `gitHubAppStateDetails`):
succeeds exactly on serialized state structs, and inverts `jsonMarshalStateDetails`. -/
def jsonUnmarshalStateDetails : StoredValue → Option gitHubAppStateDetails
  | .enc d => some d
  | .raw _ => none

/-- Modelled from the spec: the Token Store (`internal/rcache`, not part of the
sampled sources) is "an ephemeral key→value cache with per-entry time-to-live,
supporting set, get, and delete". It is modelled as an association list; TTL
expiry is an environmental deletion, so theorems quantify over arbitrary store
contents. -/
def Store : Type := List (String × StoredValue)

instance : DecidableEq Store := by unfold Store; infer_instance

/-- Cache lookup (`rcache.Cache.Get`). -/
def cacheGet (st : Store) (k : String) : Option StoredValue :=
  (List.find? (fun p => p.1 = k) st).map (fun p => p.2)

/-- Cache insertion/overwrite (`rcache.Cache.Set`). -/
def cacheSet (st : Store) (k : String) (v : StoredValue) : Store :=
  (k, v) :: List.filter (fun p => ¬ p.1 = k) st

/-- Cache deletion (`rcache.Cache.Delete`). -/
def cacheDelete (st : Store) (k : String) : Store :=
  List.filter (fun p => ¬ p.1 = k) st

theorem cacheGet_cacheSet_self (st : Store) (k : String) (v : StoredValue) :
    cacheGet (cacheSet st k v) k = some v := by
  simp [cacheGet, cacheSet, List.find?]

theorem cacheGet_cacheDelete_self (st : Store) (k : String) :
    cacheGet (cacheDelete st k) k = none := by
  unfold cacheGet cacheDelete
  induction st with
  | nil => rfl
  | cons p st ih =>
    by_cases hp : p.1 = k
    · simpa [List.filter, hp] using ih
    · simpa [List.filter, hp, List.find?] using ih

/-- The two legs of the Token Store's `consume` rejection. -/
inductive ConsumeErr where
  | notFound
  | invalidState
deriving DecidableEq

/-- The Token Store's `consume` operation: the lookup → deserialize → delete
sequence both `/redirect` and `/setup` run against a presented token
(`middleware.go` lines 252–265 and 363–378). The token is deleted only after
its context has deserialized. -/
def consume (st : Store) (t : String) : Except ConsumeErr (gitHubAppStateDetails × Store) :=
  match cacheGet st t with
  | none => .error .notFound
  | some v =>
    match jsonUnmarshalStateDetails v with
    | none => .error .invalidState
    | some d => .ok (d, cacheDelete st t)

/-- The Token Store's `issue` operation: generate a fresh token from the drawn
random bytes, serialize the context, store the pair (`RandomState` +
`json.Marshal` + `cache.Set`, the issuing path shared by the `/state` and
`/new-app-state` handlers). -/
def issue (data : List Nat) (d : gitHubAppStateDetails) (st : Store) : String × Store :=
  (RandomState data, cacheSet st (RandomState data) (jsonMarshalStateDetails d))

/-- The closed enumeration of GitHub-App domains (`types.GitHubAppDomain`):
repository sync and batch-changes workflow automation. -/
inductive GitHubAppDomain where
  | repos
  | batches
deriving DecidableEq

/-- Modelled from the spec: `parseDomain` (referenced by `middleware.go` but not
among the sampled sources) maps the domain tag of a state context to the closed
`GitHubAppDomain` enumeration; "unknown domain tags are a terminal validation
error, never silently defaulted", and a missing domain is unparseable. The tag
strings follow the spec's Scenario F (`repoSync`) and the batch-changes domain. -/
def parseDomain : Option String → Except String GitHubAppDomain
  | none => .error "no domain provided"
  | some s =>
    if s = "repoSync" then .ok .repos
    else if s = "batches" then .ok .batches
    else .error ("unknown domain: " ++ s)

/-- Uppercase hex digit, used by percent-encoding. -/
def hexDigitUpper (n : Nat) : Char :=
  if n < 10 then Char.ofNat (48 + n) else Char.ofNat (55 + n)

/-- Go's `url.QueryEscape` on ASCII strings: alphanumerics and `-_.~` are kept,
a space becomes `+`, every other character becomes `%XX`. -/
def queryEscape (s : String) : String :=
  ⟨(s.data.map (fun c =>
      if c = ' ' then ['+']
      else if c.isAlphanum || c = '-' || c = '_' || c = '.' || c = '~' then [c]
      else ['%', hexDigitUpper (c.toNat / 16), hexDigitUpper (c.toNat % 16)])).foldr
    (fun a b => a ++ b) []⟩

/-- Go's `strconv.Atoi`: optional sign, at least one ASCII digit, nothing else,
and the value must fit a 64-bit signed integer. -/
def atoi (s : String) : Option Int :=
  match s.data with
  | [] => none
  | c :: rest =>
    let signed : Bool × List Char :=
      if c = '-' then (true, rest) else if c = '+' then (false, rest) else (false, c :: rest)
    match signed with
    | (neg, ds) =>
      if ds.isEmpty then none
      else if ds.all Char.isDigit then
        let v : Nat := ds.foldl (fun a d => a * 10 + (d.toNat - 48)) 0
        if neg then (if v ≤ 2 ^ 63 then some (-(v : Int)) else none)
        else (if v < 2 ^ 63 then some (v : Int) else none)
      else none

/-- Modelled from the spec: `uuid.Parse` of `github.com/google/uuid` (an external
collaborator, not among the sampled sources) accepts the canonical 36-character
`8-4-4-4-12` hexadecimal form of the "UUID-shaped" webhook correlation
identifier and rejects other shapes, in particular the empty string. -/
def uuidParseOk (s : String) : Bool :=
  s.length = 36 &&
    (s.data.enum.all (fun ic =>
      if ic.1 = 8 || ic.1 = 13 || ic.1 = 18 || ic.1 = 23 then ic.2 = '-'
      else ic.2.isDigit || (97 ≤ ic.2.toNat && ic.2.toNat ≤ 102) ||
           (65 ≤ ic.2.toNat && ic.2.toNat ≤ 70)))

/-- Modelled from the spec: Go's `url.Parse` (standard library) fails only on
URLs containing ASCII control characters or malformed escapes; the model keeps
the control-character condition, which suffices for the branch in the handler. -/
def urlParseOk (s : String) : Bool := s.data.all (fun c => 32 ≤ c.toNat)

/-- Modelled from the spec: `github.APIRoot` (an external collaborator) derives
"the platform's app-manifest conversion endpoint … from base URL" — the public
platform maps to its API host, a self-hosted instance to its `/api/v3` root. -/
def apiRoot (baseURL : String) : String :=
  if baseURL = "https://github.com" then "https://api.github.com" else baseURL ++ "/api/v3"

/-- The conversion endpoint built by the `/redirect` handler:
`url.JoinPath(apiURL, "/app-manifests", code, "conversions")`. -/
def conversionURL (baseURL code : String) : String :=
  apiRoot baseURL ++ "/app-manifests/" ++ code ++ "/conversions"

/-- Modelled from the spec: `MarshalGitHubAppID` renders the integer app id in
the "opaque external identifier format" used in detail-page URLs. -/
def MarshalGitHubAppID (id : Int) : String := "GitHubApp:" ++ toString id

/-- Modelled from the spec: `UnmarshalGitHubAppID` decodes the opaque external
identifier format back to the internal integer id; "decode failure is a client
error (400), never a crash". Partial inverse of `MarshalGitHubAppID`. -/
def UnmarshalGitHubAppID (s : String) : Option Int :=
  if s.startsWith "GitHubApp:" then atoi (s.drop 10) else none

/-- Modelled from the spec: the App Record owned by the external storage
collaborator (`ghtypes.GitHubApp`): "identifier, display name, slug, client
identifier/secret, webhook secret, private key material, base URL, canonical
app URL, logo URL, domain tag". -/
structure GitHubApp where
  ID : Int := 0
  AppID : Int := 0
  Name : String := ""
  Slug : String := ""
  ClientID : String := ""
  ClientSecret : String := ""
  WebhookSecret : String := ""
  PrivateKey : String := ""
  BaseURL : String := ""
  AppURL : String := ""
  Logo : String := ""
  Domain : GitHubAppDomain := .repos
deriving DecidableEq

/-- Modelled from the spec: a webhook row of the webhook storage collaborator,
identified by its correlation UUID, carrying a name and a secret. -/
structure Webhook where
  UUID : String := ""
  Name : String := ""
  Secret : String := ""
deriving DecidableEq

/-- Modelled from the spec: the installation metadata fetched from the platform
("account login/avatar/html-url/type" and the canonical install URL). -/
structure RemoteInstall where
  HTMLURL : String := ""
  AccountLogin : String := ""
  AccountAvatarURL : String := ""
  AccountURL : String := ""
  AccountType : String := ""
deriving DecidableEq

/-- The Installation Record persisted on a successful install callback
(`ghtypes.GitHubAppInstallation`). -/
structure GitHubAppInstallation where
  InstallationID : Int
  AppID : Int
  URL : String
  AccountLogin : String
  AccountAvatarURL : String
  AccountURL : String
  AccountType : String
deriving DecidableEq

/-- The state observable by the middleware: the token cache plus the three
storage collaborators (app records, webhook rows, installation records). -/
structure World where
  cache : Store
  apps : List GitHubApp
  webhooks : List Webhook
  installs : List GitHubAppInstallation
deriving DecidableEq

/-- The platform's JSON answer to a manifest conversion (`GitHubAppResponse`). -/
structure GitHubAppResponse where
  AppID : Int := 0
  Slug : String := ""
  Name : String := ""
  HtmlURL : String := ""
  ClientID : String := ""
  ClientSecret : String := ""
  PEM : String := ""
  WebhookSecret : String := ""
  Permissions : List (String × String) := []
  Events : List String := []
deriving DecidableEq

/-- The body of an upstream HTTP response: either bytes that decode as a
`GitHubAppResponse`, or bytes that do not. -/
inductive ConversionBody where
  | decodes (g : GitHubAppResponse)
  | malformed (s : String)
deriving DecidableEq

/-- Outcome of an outbound HTTP call: transport error, or a status with a body. -/
inductive HTTPResult where
  | transportErr (msg : String)
  | resp (status : Nat) (body : ConversionBody)
deriving DecidableEq

/-- The external collaborators a request handler calls out to: the uncached
external HTTP client used for manifest conversion, the GitHub-App authenticator
constructor (succeeds or fails on the stored key material), and the
installation-metadata fetch against a given API root. -/
structure Collaborators where
  doPost : String → HTTPResult
  newAuthenticatorOk : Int → String → Bool
  getAppInstallation : String → Int → Except String RemoteInstall

/-- Result of the domain router: a redirect URL, or the nil-pointer dereference
the Go code performs when it formats `*domain` for the invalid-domain message
while `domain` is nil. -/
inductive RouteResult where
  | url (s : String)
  | nilDeref
deriving DecidableEq

/-- Modelled from the spec: `url.Parse` of the conversion response's `html_url`
followed by reading its scheme and host. The model expects an absolute
`scheme://host[/...]` URL and routes anything else through the (rare)
parse-failure branch. -/
def parseSchemeHost (s : String) : Option (String × String) :=
  match s.splitOn "://" with
  | [scheme, rest] => some (scheme, (rest.splitOn "/").headD "")
  | _ => none

/-- The Domain Router (`generateRedirectURL` in `middleware.go`): routes a
domain tag plus optional installation id, app id, app name and error to the
landing URL. Mirrors the Go control flow, including the `*domain` dereference
in the invalid-domain branch, which is a nil-pointer fault when `domain` is
absent (reachable only with no `creationErr`). -/
def generateRedirectURL (domain : Option String) (installationID appID : Option Int)
    (appName : Option String) (creationErr : Option String) : RouteResult :=
  match domain, creationErr with
  | none, some msg => .url ("/site-admin/github-apps?success=false&error=" ++ queryEscape msg)
  | _, _ =>
    match parseDomain domain with
    | .error _ =>
      match domain with
      | none => .nilDeref
      | some d =>
        .url ("/site-admin/github-apps?success=false&error=" ++
          queryEscape ("invalid domain: " ++ d))
    | .ok parsedDomain =>
      match parsedDomain with
      | .repos =>
        match creationErr with
        | some msg => .url ("/site-admin/github-apps?success=false&error=" ++ queryEscape msg)
        | none =>
          match installationID, appID with
          | some iid, some aid =>
            .url ("/site-admin/github-apps/" ++ MarshalGitHubAppID aid ++
              "?installation_id=" ++ toString iid)
          | _, _ =>
            .url ("/site-admin/github-apps?success=false&error=" ++
              queryEscape "missing installation ID or app ID")
      | .batches =>
        match creationErr with
        | some msg => .url ("/site-admin/batch-changes?success=false&error=" ++ queryEscape msg)
        | none =>
          match appName with
          | none => .url "/site-admin/batch-changes?success=true"
          | some name => .url ("/site-admin/batch-changes?success=true&app_name=" ++ name)

/-- The manifest-conversion client (`createGitHubApp` in `middleware.go`): POST
the conversion URL, require status 201, decode the response, and build the App
Record (base URL and logo derived from the `html_url` scheme and host). The
test-only `MockCreateGitHubApp` hook is not modelled. -/
def createGitHubApp (conversionU : String) (domain : GitHubAppDomain)
    (doPost : String → HTTPResult) : Except String GitHubApp :=
  match doPost conversionU with
  | .transportErr m => .error m
  | .resp status body =>
    if status ≠ 201 then .error ("expected 201 statusCode, got: " ++ toString status)
    else
      match body with
      | .malformed m => .error ("invalid response body: " ++ m)
      | .decodes response =>
        match parseSchemeHost response.HtmlURL with
        | none => .error ("could not parse html_url: " ++ response.HtmlURL)
        | some sh =>
          .ok { AppID := response.AppID, Name := response.Name, Slug := response.Slug,
                ClientID := response.ClientID, ClientSecret := response.ClientSecret,
                WebhookSecret := response.WebhookSecret, PrivateKey := response.PEM,
                BaseURL := sh.1 ++ "://" ++ sh.2,
                AppURL := response.HtmlURL,
                Domain := domain,
                Logo := sh.1 ++ "://" ++ sh.2 ++ "/identicons/app/app/" ++ response.Slug }

/-- An HTTP handler's observable answer: 200 body, 400, 500, a redirect with its
status code, or a fault (panic) of the handler goroutine. -/
inductive HandlerResponse where
  | ok (body : String)
  | badRequest (msg : String)
  | serverError (msg : String)
  | redirect (url : String) (status : Nat)
  | fault
deriving DecidableEq

/-- Whether a response is an HTTP 400. -/
def HandlerResponse.isBadRequest : HandlerResponse → Bool
  | .badRequest _ => true
  | _ => false

/-- Lift a domain-router result to a 302 redirect response (`http.StatusFound`),
propagating the nil-dereference as a handler fault. -/
def redirectResp : RouteResult → HandlerResponse
  | .url u => .redirect u 302
  | .nilDeref => .fault

/-- The id the app storage collaborator assigns on `Create` (fresh, positive). -/
def freshAppID (apps : List GitHubApp) : Int := Int.ofNat apps.length + 1

/-- `webhookDB.Update`: replace the row with the matching UUID. -/
def updateWebhookList (l : List Webhook) (hook : Webhook) : List Webhook :=
  l.map (fun x => if x.UUID = hook.UUID then hook else x)

/-- The `/state` handler (`stateHandler` in `middleware.go`): issue a token
bound to the empty context when no `id` query parameter is given, otherwise
decode the opaque app id and bind `{appID, domain, baseURL}`. The random bytes
drawn inside the handler are the explicit `entropy` argument. -/
def stateHandler (gqlID domain baseURL : String) (entropy : List Nat) (w : World) :
    HandlerResponse × World :=
  if gqlID = "" then
    (.ok (RandomState entropy),
     { w with cache := cacheSet w.cache (RandomState entropy) (jsonMarshalStateDetails {}) })
  else
    match UnmarshalGitHubAppID gqlID with
    | none => (.badRequest "Unexpected error while unmarshalling App ID", w)
    | some id64 =>
      (.ok (RandomState entropy),
       { w with cache := (cacheSet w.cache (RandomState entropy)
           (jsonMarshalStateDetails { AppID := id64, Domain := domain, BaseURL := baseURL })) })

/-- The `/redirect` manifest-conversion callback (`redirectHandler` in
`middleware.go`). Parameter defaults (absent query parameter = `""`) follow
`url.Values.Get`; the token is deleted from the cache only after its context
deserializes; the final redirect is 303 (`http.StatusSeeOther`) and carries a
freshly issued token bound to `{domain, appID}`. `url.JoinPath` on the app URL
is modelled total (its error fallback uses the bare app URL). -/
def redirectHandler (state code : String) (entropy : List Nat) (collab : Collaborators)
    (w : World) : HandlerResponse × World :=
  if state = "" ∨ code = "" then
    (.badRequest "Bad request, code and state query params must be present", w)
  else if state.length ≠ 64 then
    (.badRequest "Bad request, state query param is wrong length", w)
  else
    match cacheGet w.cache state with
    | none => (.badRequest "Bad request, state query param does not match", w)
    | some stateValue =>
      match jsonUnmarshalStateDetails stateValue with
      | none => (.badRequest "Bad request, invalid state", w)
      | some stateDetails =>
        if uuidParseOk stateDetails.WebhookUUID then
          if urlParseOk stateDetails.BaseURL then
            match parseDomain (some stateDetails.Domain) with
            | .error e =>
              (.badRequest ("Unable to parse domain: " ++ e),
               { w with cache := cacheDelete w.cache state })
            | .ok domain =>
              match createGitHubApp (conversionURL stateDetails.BaseURL code) domain
                  collab.doPost with
              | .error e =>
                (.serverError ("Unexpected error while converting github app: " ++ e),
                 { w with cache := cacheDelete w.cache state })
              | .ok app0 =>
                match List.find? (fun x => x.UUID = stateDetails.WebhookUUID) w.webhooks with
                | none =>
                  (.serverError "Error while fetching webhook: webhook not found",
                   { w with cache := cacheDelete w.cache state,
                            apps := w.apps ++ [{ app0 with ID := freshAppID w.apps }] })
                | some hook =>
                  (.redirect (app0.AppURL ++ "/installations/new?state=" ++ RandomState entropy)
                     303,
                   { w with
                     cache := (cacheSet (cacheDelete w.cache state) (RandomState entropy)
                       (jsonMarshalStateDetails
                         { Domain := stateDetails.Domain, AppID := freshAppID w.apps })),
                     apps := w.apps ++ [{ app0 with ID := freshAppID w.apps }],
                     webhooks := (updateWebhookList w.webhooks
                       { hook with Secret := app0.WebhookSecret, Name := app0.Name }) })
          else
            (.serverError "Bad request, could not parse baseURL from state",
             { w with cache := cacheDelete w.cache state })
        else
          (.badRequest "Bad request, could not parse webhook UUID",
           { w with cache := cacheDelete w.cache state })

/-- The `/setup` installation-completion callback (`setupHandler` in
`middleware.go`). A request missing `state` or `installation_id` is routed to
the generic admin listing; cache-miss, deserialization and `Atoi` failures are
routed through the Domain Router; only `setup_action=install` is supported; the
final install persists the installation record. The storage `Install` write is
modelled as always succeeding. -/
def setupHandler (state instID action : String) (collab : Collaborators) (w : World) :
    HandlerResponse × World :=
  if state = "" ∨ instID = "" then
    (.redirect "/site-admin/github-apps" 302, w)
  else if state.length ≠ 64 then
    (.badRequest "Bad request, state query param is wrong length", w)
  else
    match cacheGet w.cache state with
    | none =>
      (redirectResp (generateRedirectURL none none none none
        (some "Bad request, state query param does not match")), w)
    | some setupInfo =>
      match jsonUnmarshalStateDetails setupInfo with
      | none =>
        (redirectResp (generateRedirectURL none none none none
          (some "Bad request, invalid state")), w)
      | some stateDetails =>
        match atoi instID with
        | none =>
          (redirectResp (generateRedirectURL (some stateDetails.Domain) none
            (some stateDetails.AppID) none (some "Bad request, could not parse installation ID")),
           { w with cache := cacheDelete w.cache state })
        | some installationID =>
          if action = "install" then
            match List.find? (fun a => a.ID = stateDetails.AppID) w.apps with
            | none =>
              (redirectResp (generateRedirectURL (some stateDetails.Domain)
                (some installationID) (some stateDetails.AppID) none
                (some "Unexpected error while fetching GitHub App from DB")),
               { w with cache := cacheDelete w.cache state })
            | some app =>
              if collab.newAuthenticatorOk app.AppID app.PrivateKey then
                if urlParseOk app.BaseURL then
                  match collab.getAppInstallation (apiRoot app.BaseURL) installationID with
                  | .error e =>
                    (redirectResp (generateRedirectURL (some stateDetails.Domain)
                      (some installationID) (some stateDetails.AppID) none
                      (some ("Unexpected error while fetching App installation details from GitHub: " ++ e))),
                     { w with cache := cacheDelete w.cache state })
                  | .ok remoteInstall =>
                    (redirectResp (generateRedirectURL (some stateDetails.Domain)
                      (some installationID) (some app.ID) (some app.Name) none),
                     { w with cache := cacheDelete w.cache state,
                              installs := (w.installs ++
                                [{ InstallationID := installationID, AppID := app.ID,
                                   URL := remoteInstall.HTMLURL,
                                   AccountLogin := remoteInstall.AccountLogin,
                                   AccountAvatarURL := remoteInstall.AccountAvatarURL,
                                   AccountURL := remoteInstall.AccountURL,
                                   AccountType := remoteInstall.AccountType }]) })
                else
                  (redirectResp (generateRedirectURL (some stateDetails.Domain)
                    (some installationID) (some stateDetails.AppID) none
                    (some "Unexpected error while parsing App base URL")),
                   { w with cache := cacheDelete w.cache state })
              else
                (redirectResp (generateRedirectURL (some stateDetails.Domain)
                  (some installationID) (some stateDetails.AppID) none
                  (some "Unexpected error while creating GitHubAppAuthenticator")),
                 { w with cache := cacheDelete w.cache state })
          else
            (.badRequest ("Bad request; unsupported setup action: " ++ action),
             { w with cache := cacheDelete w.cache state })

theorem length64_ne_empty {s : String} (h : s.length = 64) : ¬ s = "" := by
  intro he
  rw [he] at h
  exact absurd h (by decide)

/-- A 64-character token used to instantiate the theorems below. -/
def tokenA : String := "aaaaaaaaaaaaaaaaaaaaaaaaaaaaaaaaaaaaaaaaaaaaaaaaaaaaaaaaaaaaaaaa"

/-- The world with an empty cache and empty storage. -/
def emptyWorld : World := ⟨[], [], [], []⟩

/-- Concrete collaborators whose conversion endpoint answers 500. -/
def collabStub : Collaborators :=
  ⟨fun _ => .resp 500 (.malformed ""), fun _ _ => true, fun _ _ => .error "unavailable"⟩

/-- A well-formed conversion response payload. -/
def appRespA : GitHubAppResponse :=
  { AppID := 1, Slug := "app", Name := "App", HtmlURL := "https://github.example.com/apps/app" }

/-- Concrete collaborators whose conversion endpoint answers 201 with a
well-formed app payload. -/
def collabOk : Collaborators :=
  ⟨fun _ => .resp 201 (.decodes appRespA), fun _ _ => true, fun _ _ => .ok {}⟩

instance {ε α : Type} [DecidableEq ε] [DecidableEq α] : DecidableEq (Except ε α) := fun a b =>
  match a, b with
  | .error e1, .error e2 => decidable_of_iff (e1 = e2) (by simp)
  | .ok a1, .ok a2 => decidable_of_iff (a1 = a2) (by simp)
  | .error _, .ok _ => isFalse (by simp)
  | .ok _, .error _ => isFalse (by simp)

/-- Claim C6: issuing a token for any context returns the hex-encoded SHA-256
digest of the drawn random bytes — exactly 64 lowercase hexadecimal characters,
whatever the entropy byte-length — and consuming that token immediately
afterwards yields a context deep-equal to the one issued. -/
theorem issue_consume_roundtrip (C : gitHubAppStateDetails) (data : List Nat) (st : Store) :
    (issue data C st).1 = RandomState data
    ∧ (issue data C st).1.length = 64
    ∧ isLowerHex (issue data C st).1 = true
    ∧ consume (issue data C st).2 (issue data C st).1
        = .ok (C, cacheDelete (issue data C st).2 (issue data C st).1) := by
  refine ⟨rfl, RandomState_length data, RandomState_lowerHex data, ?_⟩
  simp [issue, consume, cacheGet_cacheSet_self, jsonMarshalStateDetails,
    jsonUnmarshalStateDetails]

/-- Claim C1: token consumption is single-use and total — after a successful
consume of `t` a second consume of `t` is NotFound; and on a token absent from
the store (never issued or expired), whatever the store's contents, `/redirect`
answers 400 "state query param does not match" and `/setup` answers with the
domain-routed error redirect, never a fault. -/
theorem consume_single_use_and_total
    (st st2 : Store) (t code instID action : String) (d : gitHubAppStateDetails)
    (entropy : List Nat) (collab : Collaborators) (w : World)
    (hconsume : consume st t = .ok (d, st2))
    (hmiss : cacheGet w.cache t = none)
    (hlen : t.length = 64) (hcode : ¬ code = "") (hinst : ¬ instID = "") :
    consume st2 t = .error .notFound
    ∧ redirectHandler t code entropy collab w
        = (.badRequest "Bad request, state query param does not match", w)
    ∧ setupHandler t instID action collab w
        = (.redirect ("/site-admin/github-apps?success=false&error=" ++
            queryEscape "Bad request, state query param does not match") 302, w) := by
  have ht : ¬ t = "" := length64_ne_empty hlen
  have h2 : st2 = cacheDelete st t := by
    cases hg : cacheGet st t with
    | none => simp [consume, hg] at hconsume
    | some v =>
      cases hv : jsonUnmarshalStateDetails v with
      | none => simp [consume, hg, hv] at hconsume
      | some d2 =>
        simp [consume, hg, hv] at hconsume
        exact hconsume.2.symm
  refine ⟨?_, ?_, ?_⟩
  · rw [h2]
    simp [consume, cacheGet_cacheDelete_self]
  · simp [redirectHandler, ht, hcode, hlen, hmiss]
  · simp [setupHandler, ht, hinst, hlen, hmiss, redirectResp, generateRedirectURL]

theorem consume_single_use_and_total_witness :
    consume [] tokenA = .error .notFound
    ∧ redirectHandler tokenA "abc" [] collabStub emptyWorld
        = (.badRequest "Bad request, state query param does not match", emptyWorld)
    ∧ setupHandler tokenA "7" "install" collabStub emptyWorld
        = (.redirect ("/site-admin/github-apps?success=false&error=" ++
            queryEscape "Bad request, state query param does not match") 302, emptyWorld) :=
  consume_single_use_and_total [(tokenA, .enc {})] [] tokenA "abc" "7" "install" {} []
    collabStub emptyWorld (by decide) (by decide) (by decide) (by decide) (by decide)

/-- Claim C2: on both `/redirect` and `/setup`, a stored value that fails to
deserialize as a state context is rejected without deleting the token — the
store is returned unchanged, so deletion happens only after successful
deserialization. -/
theorem reject_bad_payload_keeps_entry
    (state code instID action : String) (v : StoredValue) (entropy : List Nat)
    (collab : Collaborators) (w : World)
    (hlen : state.length = 64) (hcode : ¬ code = "") (hinst : ¬ instID = "")
    (hget : cacheGet w.cache state = some v)
    (hbad : jsonUnmarshalStateDetails v = none) :
    redirectHandler state code entropy collab w = (.badRequest "Bad request, invalid state", w)
    ∧ setupHandler state instID action collab w
        = (.redirect ("/site-admin/github-apps?success=false&error=" ++
            queryEscape "Bad request, invalid state") 302, w) := by
  have hs : ¬ state = "" := length64_ne_empty hlen
  constructor
  · simp [redirectHandler, hs, hcode, hlen, hget, hbad]
  · simp [setupHandler, hs, hinst, hlen, hget, hbad, redirectResp, generateRedirectURL]

theorem reject_bad_payload_keeps_entry_witness :
    redirectHandler tokenA "abc" [] collabStub ⟨[(tokenA, .raw "junk")], [], [], []⟩
      = (.badRequest "Bad request, invalid state", ⟨[(tokenA, .raw "junk")], [], [], []⟩)
    ∧ setupHandler tokenA "7" "install" collabStub ⟨[(tokenA, .raw "junk")], [], [], []⟩
      = (.redirect ("/site-admin/github-apps?success=false&error=" ++
          queryEscape "Bad request, invalid state") 302, ⟨[(tokenA, .raw "junk")], [], [], []⟩) :=
  reject_bad_payload_keeps_entry tokenA "abc" "7" "install" (.raw "junk") [] collabStub
    ⟨[(tokenA, .raw "junk")], [], [], []⟩ (by decide) (by decide) (by decide) (by decide)
    (by decide)

/-- Claim C7: a state whose length differs from 64 is answered 400 before any
Token Store operation — the world is unchanged and the response does not depend
on the store — on `/redirect` always and on `/setup` whenever `state` and
`installation_id` are non-empty. -/
theorem wrong_length_rejected_before_store
    (state code instID action : String) (entropy : List Nat) (collab : Collaborators)
    (w w2 : World) (hlen : state.length ≠ 64) :
    (redirectHandler state code entropy collab w).1.isBadRequest = true
    ∧ (redirectHandler state code entropy collab w).2 = w
    ∧ (redirectHandler state code entropy collab w).1
        = (redirectHandler state code entropy collab w2).1
    ∧ (¬ state = "" → ¬ instID = "" →
        setupHandler state instID action collab w
          = (.badRequest "Bad request, state query param is wrong length", w)
        ∧ (setupHandler state instID action collab w).1
            = (setupHandler state instID action collab w2).1) := by
  have hred : ∀ (u : World), redirectHandler state code entropy collab u
      = (if state = "" ∨ code = "" then
          (.badRequest "Bad request, code and state query params must be present", u)
        else (.badRequest "Bad request, state query param is wrong length", u)) := by
    intro u
    by_cases hs : state = "" ∨ code = ""
    · simp [redirectHandler, hs]
    · simp [redirectHandler, hs, hlen]
  refine ⟨?_, ?_, ?_, ?_⟩
  · rw [hred w]; split <;> rfl
  · rw [hred w]; split <;> rfl
  · rw [hred w, hred w2]; split <;> rfl
  · intro hs hi
    constructor
    · simp [setupHandler, hs, hi, hlen]
    · simp [setupHandler, hs, hi, hlen]

theorem wrong_length_rejected_before_store_witness :
    (redirectHandler "abc" "x" [] collabStub emptyWorld).1.isBadRequest = true
    ∧ (redirectHandler "abc" "x" [] collabStub emptyWorld).2 = emptyWorld
    ∧ (redirectHandler "abc" "x" [] collabStub emptyWorld).1
        = (redirectHandler "abc" "x" [] collabStub ⟨[(tokenA, .raw "z")], [], [], []⟩).1
    ∧ (¬ "abc" = "" → ¬ "7" = "" →
        setupHandler "abc" "7" "install" collabStub emptyWorld
          = (.badRequest "Bad request, state query param is wrong length", emptyWorld)
        ∧ (setupHandler "abc" "7" "install" collabStub emptyWorld).1
            = (setupHandler "abc" "7" "install" collabStub ⟨[(tokenA, .raw "z")], [], [], []⟩).1) :=
  wrong_length_rejected_before_store "abc" "x" "7" "install" [] collabStub emptyWorld
    ⟨[(tokenA, .raw "z")], [], [], []⟩ (by decide)

theorem bare_state_redirect_stops_at_uuid_aux
    (entropy e2 : List Nat) (code : String) (collab : Collaborators) (w : World)
    (hcode : ¬ code = "") :
    redirectHandler (RandomState entropy) code e2 collab (stateHandler "" "" "" entropy w).2
      = (.badRequest "Bad request, could not parse webhook UUID",
         { w with cache := (cacheDelete
             (cacheSet w.cache (RandomState entropy) (jsonMarshalStateDetails {}))
             (RandomState entropy)) }) := by
  have hne : ¬ RandomState entropy = "" := by
    intro h
    exact absurd (RandomState_length entropy) (by rw [h]; decide)
  simp [stateHandler, redirectHandler, hne, hcode, RandomState_length, cacheGet_cacheSet_self,
    jsonMarshalStateDetails, jsonUnmarshalStateDetails, uuidParseOk, gitHubAppStateDetails]

/-- Claim C3 counterexample: a token issued via `/state` with no `id` (storing
the default context) and presented to `/redirect` with a `code` is answered 400
"could not parse webhook UUID" — the upstream conversion client is never
consulted (two collaborators with different conversion endpoints produce the
same answer), so the request does not proceed to the manifest-conversion
attempt. -/
theorem bare_state_redirect_no_conversion :
    (redirectHandler (RandomState []) "abc" [1] collabStub
        (stateHandler "" "" "" [] emptyWorld).2).1
      = .badRequest "Bad request, could not parse webhook UUID"
    ∧ (redirectHandler (RandomState []) "abc" [1] collabStub
        (stateHandler "" "" "" [] emptyWorld).2).1
      = (redirectHandler (RandomState []) "abc" [1] collabOk
        (stateHandler "" "" "" [] emptyWorld).2).1 := by
  rw [bare_state_redirect_stops_at_uuid_aux [] [1] "abc" collabStub emptyWorld (by decide),
    bare_state_redirect_stops_at_uuid_aux [] [1] "abc" collabOk emptyWorld (by decide)]
  exact ⟨rfl, rfl⟩

/-- Claim C3 amended: a token issued via `/state` with no id parameter and later
presented to `/redirect` with a `code` deserializes successfully and is
consumed, but the handler then rejects the request with 400 "could not parse
webhook UUID" — the default context's empty webhook UUID fails UUID parsing —
so the manifest-conversion attempt is never reached. -/
theorem bare_state_redirect_stops_at_uuid
    (entropy e2 : List Nat) (code : String) (collab : Collaborators) (w : World)
    (hcode : ¬ code = "") :
    (redirectHandler (RandomState entropy) code e2 collab
        (stateHandler "" "" "" entropy w).2).1
      = .badRequest "Bad request, could not parse webhook UUID"
    ∧ cacheGet (redirectHandler (RandomState entropy) code e2 collab
        (stateHandler "" "" "" entropy w).2).2.cache (RandomState entropy) = none := by
  rw [bare_state_redirect_stops_at_uuid_aux entropy e2 code collab w hcode]
  exact ⟨rfl, cacheGet_cacheDelete_self _ _⟩

theorem bare_state_redirect_stops_at_uuid_witness :
    (redirectHandler (RandomState []) "abc" [1] collabOk
        (stateHandler "" "" "" [] emptyWorld).2).1
      = .badRequest "Bad request, could not parse webhook UUID"
    ∧ cacheGet (redirectHandler (RandomState []) "abc" [1] collabOk
        (stateHandler "" "" "" [] emptyWorld).2).2.cache (RandomState []) = none :=
  bare_state_redirect_stops_at_uuid [] [1] "abc" collabOk emptyWorld (by decide)

/-- Claim C4 counterexample: a `/setup` request with `state` present but
`installation_id` absent is immediately 302-redirected to the generic admin
listing — it does not proceed to state-length validation (the three-character
state would otherwise be a 400). -/
theorem setup_state_without_installation_id_redirects :
    setupHandler "abc" "" "install" collabStub emptyWorld
      = (.redirect "/site-admin/github-apps" 302, emptyWorld) := by decide

/-- Claim C4 amended: `/setup` treats a request as a direct-from-platform
installation exactly when `state` or `installation_id` is absent — in that case
it responds 302 to the generic site-admin listing with no store access — and
proceeds to state-length validation only when both are present. -/
theorem setup_presence_gate (state instID action : String) (collab : Collaborators)
    (w : World) :
    (state = "" ∨ instID = "" →
      setupHandler state instID action collab w
        = (.redirect "/site-admin/github-apps" 302, w))
    ∧ (¬ state = "" → ¬ instID = "" → state.length ≠ 64 →
      setupHandler state instID action collab w
        = (.badRequest "Bad request, state query param is wrong length", w)) := by
  constructor
  · intro hs
    simp [setupHandler, hs]
  · intro hs hi hlen
    simp [setupHandler, hs, hi, hlen]

theorem setup_presence_gate_witness :
    setupHandler "" "77" "install" collabStub emptyWorld
      = (.redirect "/site-admin/github-apps" 302, emptyWorld)
    ∧ setupHandler "abc" "77" "install" collabStub emptyWorld
      = (.badRequest "Bad request, state query param is wrong length", emptyWorld) :=
  ⟨(setup_presence_gate "" "77" "install" collabStub emptyWorld).1 (Or.inl rfl),
   (setup_presence_gate "abc" "77" "install" collabStub emptyWorld).2 (by decide) (by decide)
     (by decide)⟩

/-- Claim C5: the Domain Router is not total — with an absent domain and no
error (every optional argument absent), the Go code reaches the invalid-domain
branch and dereferences the nil `domain` pointer in the message format,
a nil-pointer fault rather than a well-formed URL. -/
theorem generateRedirectURL_nil_domain_faults :
    generateRedirectURL none none none none none = .nilDeref := rfl

/-- Claim C8: on `/setup` with `setup_action=install`, a resolvable 64-character
state whose context carries the repository-sync domain and an app id, and an
`installation_id` that does not parse as an integer, the handler 302-redirects
to the repo-apps listing with `success=false` and the installation-ID parse
error, and the response does not depend on the app storage (the app record is
not fetched). -/
theorem setup_bad_installation_id_routed
    (state instID : String) (d : gitHubAppStateDetails) (collab : Collaborators)
    (w : World) (apps2 : List GitHubApp)
    (hlen : state.length = 64) (hinst : ¬ instID = "") (hatoi : atoi instID = none)
    (hget : cacheGet w.cache state = some (.enc d)) (hdom : d.Domain = "repoSync") :
    setupHandler state instID "install" collab w
      = (.redirect ("/site-admin/github-apps?success=false&error=" ++
          queryEscape "Bad request, could not parse installation ID") 302,
         { w with cache := cacheDelete w.cache state })
    ∧ (setupHandler state instID "install" collab { w with apps := apps2 }).1
        = (setupHandler state instID "install" collab w).1 := by
  have hs : ¬ state = "" := length64_ne_empty hlen
  have H : ∀ (u : World), cacheGet u.cache state = some (.enc d) →
      setupHandler state instID "install" collab u
        = (.redirect ("/site-admin/github-apps?success=false&error=" ++
            queryEscape "Bad request, could not parse installation ID") 302,
           { u with cache := cacheDelete u.cache state }) := by
    intro u hu
    simp [setupHandler, hs, hinst, hlen, hu, jsonUnmarshalStateDetails, hatoi, hdom,
      generateRedirectURL, parseDomain, redirectResp]
  refine ⟨H w hget, ?_⟩
  rw [H w hget, H { w with apps := apps2 } (by simpa using hget)]

theorem setup_bad_installation_id_routed_witness :
    setupHandler tokenA "notanumber" "install" collabStub
        ⟨[(tokenA, .enc { Domain := "repoSync", AppID := 7 })], [], [], []⟩
      = (.redirect ("/site-admin/github-apps?success=false&error=" ++
          queryEscape "Bad request, could not parse installation ID") 302,
         ⟨[], [], [], []⟩)
    ∧ (setupHandler tokenA "notanumber" "install" collabStub
        ⟨[(tokenA, .enc { Domain := "repoSync", AppID := 7 })], [{ ID := 7 }], [], []⟩).1
        = (setupHandler tokenA "notanumber" "install" collabStub
            ⟨[(tokenA, .enc { Domain := "repoSync", AppID := 7 })], [], [], []⟩).1 := by
  have h := setup_bad_installation_id_routed tokenA "notanumber"
    { Domain := "repoSync", AppID := 7 } collabStub
    ⟨[(tokenA, .enc { Domain := "repoSync", AppID := 7 })], [], [], []⟩ [{ ID := 7 }]
    (by decide) (by decide) (by decide) (by decide) (by decide)
  exact ⟨by rw [h.1]; decide, h.2⟩

/-- Claim C9: the manifest conversion succeeds only on upstream status 201 — any
other status makes `createGitHubApp` return an error carrying the upstream
status code, which `/redirect` surfaces as HTTP 500, and after the failure the
only state change is the already-consumed token: no app record is persisted, no
webhook is updated, and no new token is stored. -/
theorem conversion_non_201_no_side_effects
    (state code : String) (d : gitHubAppStateDetails) (dom : GitHubAppDomain)
    (entropy : List Nat) (collab : Collaborators) (w : World)
    (status : Nat) (body : ConversionBody)
    (hlen : state.length = 64) (hcode : ¬ code = "")
    (hget : cacheGet w.cache state = some (.enc d))
    (huuid : uuidParseOk d.WebhookUUID = true)
    (hurl : urlParseOk d.BaseURL = true)
    (hdom : parseDomain (some d.Domain) = .ok dom)
    (hpost : collab.doPost (conversionURL d.BaseURL code) = .resp status body)
    (hstatus : status ≠ 201) :
    createGitHubApp (conversionURL d.BaseURL code) dom collab.doPost
      = .error ("expected 201 statusCode, got: " ++ toString status)
    ∧ redirectHandler state code entropy collab w
      = (.serverError ("Unexpected error while converting github app: " ++
          ("expected 201 statusCode, got: " ++ toString status)),
         { w with cache := cacheDelete w.cache state }) := by
  have hs : ¬ state = "" := length64_ne_empty hlen
  have hc : createGitHubApp (conversionURL d.BaseURL code) dom collab.doPost
      = .error ("expected 201 statusCode, got: " ++ toString status) := by
    simp [createGitHubApp, hpost, hstatus]
  refine ⟨hc, ?_⟩
  simp [redirectHandler, hs, hcode, hlen, hget, jsonUnmarshalStateDetails, huuid, hurl,
    hdom, hc]

/-- A concrete state context reaching the conversion call. -/
def stateDetailsC9 : gitHubAppStateDetails :=
  { WebhookUUID := "123e4567-e89b-12d3-a456-426614174000", Domain := "repoSync",
    BaseURL := "https://ghe.example.com" }

theorem conversion_non_201_no_side_effects_witness :
    createGitHubApp (conversionURL stateDetailsC9.BaseURL "abc") .repos collabStub.doPost
      = .error ("expected 201 statusCode, got: " ++ toString 500)
    ∧ redirectHandler tokenA "abc" [] collabStub
        ⟨[(tokenA, .enc stateDetailsC9)], [], [], []⟩
      = (.serverError ("Unexpected error while converting github app: " ++
          ("expected 201 statusCode, got: " ++ toString 500)),
         ⟨[], [], [], []⟩) := by
  have h := conversion_non_201_no_side_effects tokenA "abc" stateDetailsC9 .repos []
    collabStub ⟨[(tokenA, .enc stateDetailsC9)], [], [], []⟩ 500 (.malformed "")
    (by decide) (by decide) (by decide) (by decide) (by decide) (by decide) rfl (by decide)
  exact ⟨h.1, by rw [h.2]; decide⟩

/-- Claim C10: `/setup` deletes the token right after its context deserializes,
before `installation_id` is parsed and before `setup_action` is examined — a
request with a resolvable 64-character state, a parseable `installation_id` and
a `setup_action` other than `install` gets 400 "unsupported setup action" while
the token is consumed, so replaying the identical request is rejected as a
state mismatch. -/
theorem setup_consumes_token_before_action_check
    (state instID action : String) (n : Int) (v : StoredValue) (d : gitHubAppStateDetails)
    (collab : Collaborators) (w : World)
    (hlen : state.length = 64) (hinst : ¬ instID = "")
    (hget : cacheGet w.cache state = some v)
    (hdec : jsonUnmarshalStateDetails v = some d)
    (hatoi : atoi instID = some n) (haction : ¬ action = "install") :
    setupHandler state instID action collab w
      = (.badRequest ("Bad request; unsupported setup action: " ++ action),
         { w with cache := cacheDelete w.cache state })
    ∧ setupHandler state instID action collab { w with cache := cacheDelete w.cache state }
      = (.redirect ("/site-admin/github-apps?success=false&error=" ++
          queryEscape "Bad request, state query param does not match") 302,
         { w with cache := cacheDelete w.cache state }) := by
  have hs : ¬ state = "" := length64_ne_empty hlen
  constructor
  · simp [setupHandler, hs, hinst, hlen, hget, hdec, hatoi, haction]
  · simp [setupHandler, hs, hinst, hlen, cacheGet_cacheDelete_self, redirectResp,
      generateRedirectURL]

/-- A concrete repository-sync state context. -/
def stateDetailsRepo : gitHubAppStateDetails := { Domain := "repoSync", AppID := 7 }

/-- A concrete world holding one issued token bound to `stateDetailsRepo`. -/
def worldRepo : World := ⟨[(tokenA, .enc stateDetailsRepo)], [], [], []⟩

theorem setup_consumes_token_before_action_check_witness :
    setupHandler tokenA "42" "request" collabStub worldRepo
      = (.badRequest ("Bad request; unsupported setup action: " ++ "request"),
         { worldRepo with cache := cacheDelete worldRepo.cache tokenA })
    ∧ setupHandler tokenA "42" "request" collabStub
        { worldRepo with cache := cacheDelete worldRepo.cache tokenA }
      = (.redirect ("/site-admin/github-apps?success=false&error=" ++
          queryEscape "Bad request, state query param does not match") 302,
         { worldRepo with cache := cacheDelete worldRepo.cache tokenA }) :=
  setup_consumes_token_before_action_check tokenA "42" "request" 42
    (.enc stateDetailsRepo) stateDetailsRepo collabStub worldRepo
    (by decide) (by decide) (by decide) (by decide) (by decide) (by decide)
